import Mathlib

/-!
Verification of the loan-prediction inference pipeline (`app.py`).

The embedding mirrors `predict_loan` and the surrounding module state:
categorical raw fields arrive as strings (as delivered by the form layer),
numeric raw fields are rationals, Python dictionary lookups that can raise
`KeyError` and the scaler/model calls that can raise are threaded through
`Except PyExc`.  The `try:`/`except:` block of the source corresponds to
`inference` being matched and its error converted into the
error-prefixed verdict string, while lookups before the `try:` propagate
their exception out of `predict_loan` unchanged.
-/

/-- A Python exception value as visible to the pipeline: a `KeyError` from a
dictionary or column lookup, or an exception raised by the scaler/model with
its message. -/
inductive PyExc where
  | keyError : String → PyExc
  | raised : String → PyExc
deriving DecidableEq

/-- `str(e)` as used in the `except` branch: the text of the exception. -/
def PyExc.str : PyExc → String
  | .keyError k => k
  | .raised msg => msg

/-- The thirteen raw applicant fields, in the order `predict_loan` takes
them.  Categorical fields are the raw strings chosen in the form; numeric
fields are rationals. -/
structure RawInput where
  age : ℚ
  gender : String
  education : String
  income : ℚ
  emp_exp : ℚ
  home_ownership : String
  loan_amount : ℚ
  loan_intent : String
  interest_rate : ℚ
  loan_percent_income : ℚ
  credit_history : ℚ
  credit_score : ℚ
  previous_defaults : String

/-- `gender_map = {"female": 0, "male": 1}` from the source. -/
def gender_map : List (String × ℚ) := [("female", 0), ("male", 1)]

/-- `education_map = {"High School": 0, "Associate": 1, "Bachelor": 2,
"Master": 3}` from the source (the spec names the first value
`HighSchool`; its raw string carries a space). -/
def education_map : List (String × ℚ) :=
  [("High School", 0), ("Associate", 1), ("Bachelor", 2), ("Master", 3)]

/-- `home_map = {"RENT": 0, "OWN": 1, "MORTGAGE": 2, "OTHER": 3}`. -/
def home_map : List (String × ℚ) :=
  [("RENT", 0), ("OWN", 1), ("MORTGAGE", 2), ("OTHER", 3)]

/-- `defaults_map = {"No": 0, "Yes": 1}`. -/
def defaults_map : List (String × ℚ) := [("No", 0), ("Yes", 1)]

/-- Python's `d[k]`: the value when the key is present, a `KeyError`
exception otherwise. -/
def dictGet (d : List (String × ℚ)) (k : String) : Except PyExc ℚ :=
  match d.lookup k with
  | some v => Except.ok v
  | none => Except.error (PyExc.keyError k)

/-- `intent_education = 1 if loan_intent == "EDUCATION" else 0`. -/
def intent_education (loan_intent : String) : ℚ :=
  if loan_intent = "EDUCATION" then 1 else 0

/-- `intent_homeimprovement = 1 if loan_intent == "HOMEIMPROVEMENT" else 0`. -/
def intent_homeimprovement (loan_intent : String) : ℚ :=
  if loan_intent = "HOMEIMPROVEMENT" then 1 else 0

/-- `intent_medical = 1 if loan_intent == "MEDICAL" else 0`. -/
def intent_medical (loan_intent : String) : ℚ :=
  if loan_intent = "MEDICAL" then 1 else 0

/-- `intent_personal = 1 if loan_intent == "PERSONAL" else 0`. -/
def intent_personal (loan_intent : String) : ℚ :=
  if loan_intent = "PERSONAL" then 1 else 0

/-- `intent_venture = 1 if loan_intent == "VENTURE" else 0`. -/
def intent_venture (loan_intent : String) : ℚ :=
  if loan_intent = "VENTURE" then 1 else 0

/-- The five one-hot indicator values, in the order the source computes and
stores them. -/
def intentBlock (loan_intent : String) : List ℚ :=
  [intent_education loan_intent, intent_homeimprovement loan_intent,
   intent_medical loan_intent, intent_personal loan_intent,
   intent_venture loan_intent]

/-- The five declared loan-intent values, matching the order of the one-hot
columns. -/
def fiveIntents : List String :=
  ["EDUCATION", "HOMEIMPROVEMENT", "MEDICAL", "PERSONAL", "VENTURE"]

/-- The `input_dict` literal of the source: the 17 name-keyed features in
the order they are written, given the already-encoded categorical codes. -/
def input_dict (r : RawInput)
    (gender_encoded education_encoded home_encoded defaults_encoded : ℚ) :
    List (String × ℚ) :=
  [("person_age", r.age),
   ("person_gender", gender_encoded),
   ("person_education", education_encoded),
   ("person_income", r.income),
   ("person_emp_exp", r.emp_exp),
   ("person_home_ownership", home_encoded),
   ("loan_amnt", r.loan_amount),
   ("loan_int_rate", r.interest_rate),
   ("loan_percent_income", r.loan_percent_income),
   ("cb_person_cred_hist_length", r.credit_history),
   ("credit_score", r.credit_score),
   ("previous_loan_defaults_on_file", defaults_encoded),
   ("loan_intent_EDUCATION", intent_education r.loan_intent),
   ("loan_intent_HOMEIMPROVEMENT", intent_homeimprovement r.loan_intent),
   ("loan_intent_MEDICAL", intent_medical r.loan_intent),
   ("loan_intent_PERSONAL", intent_personal r.loan_intent),
   ("loan_intent_VENTURE", intent_venture r.loan_intent)]

/-- The 17 feature names in the order `input_dict` produces them. -/
def featureKeys : List String :=
  ["person_age", "person_gender", "person_education", "person_income",
   "person_emp_exp", "person_home_ownership", "loan_amnt", "loan_int_rate",
   "loan_percent_income", "cb_person_cred_hist_length", "credit_score",
   "previous_loan_defaults_on_file", "loan_intent_EDUCATION",
   "loan_intent_HOMEIMPROVEMENT", "loan_intent_MEDICAL",
   "loan_intent_PERSONAL", "loan_intent_VENTURE"]

/-- `pd.DataFrame([input_dict])[feature_names]`: column selection by name.
Each requested name is looked up in the row; a present name yields its
column, an absent name raises `KeyError`.  Names of the row that are not
requested are silently dropped, exactly as pandas column selection does. -/
def selectColumns (row : List (String × ℚ)) (names : List String) :
    Except PyExc (List (String × ℚ)) :=
  match names with
  | [] => Except.ok []
  | n :: rest =>
    match row.lookup n with
    | none => Except.error (PyExc.keyError n)
    | some v =>
      match selectColumns row rest with
      | Except.error e => Except.error e
      | Except.ok cols => Except.ok ((n, v) :: cols)

/-- The fitted scaler of the artifact: `transform` maps the raw feature row
to the normalized row and may raise. -/
structure Scaler where
  transform : List ℚ → Except PyExc (List ℚ)

/-- The trained classifier: `predict` yields the (single-row) class label,
`predict_proba` the probability pair `(P(class 0), P(class 1))`; either may
raise. -/
structure Model where
  predict : List ℚ → Except PyExc ℚ
  predict_proba : List ℚ → Except PyExc (ℚ × ℚ)

/-- The unpickled `model_data` bundle: model, scaler and the declared
feature-name list. -/
structure ModelArtifact where
  model : Model
  scaler : Scaler
  feature_names : List String

/-- Rounding to the nearest integer (halves up): `⌊q + 1/2⌋`, written as a
euclidean integer division on the numerator and denominator so that it
evaluates. -/
def pyRound (q : ℚ) : Int := Int.ediv (2 * q.num + (q.den : Int)) (2 * (q.den : Int))

/-- Renders a rational with two decimal places, the `.2f` of
`f"Confidence: {confidence:.2f}%"` (nearest hundredth over ℚ). -/
def formatTwoDec (q : ℚ) : String :=
  let n : Int := pyRound (q * 100)
  let sign := if n < 0 then "-" else ""
  let a := n.natAbs
  let frac := a % 100
  sign ++ toString (a / 100) ++ "." ++
    (if frac < 10 then "0" else "") ++ toString frac

/-- The body of the `try:` block: scale, predict, read the probabilities,
then build the verdict line.  Any exception of the three calls propagates
as `Except.error`. -/
def inference (m : ModelArtifact) (input_data : List (String × ℚ)) :
    Except PyExc String :=
  match m.scaler.transform (input_data.map Prod.snd) with
  | Except.error e => Except.error e
  | Except.ok input_scaled =>
    match m.model.predict input_scaled with
    | Except.error e => Except.error e
    | Except.ok prediction =>
      match m.model.predict_proba input_scaled with
      | Except.error e => Except.error e
      | Except.ok probability =>
        let rc : String × ℚ :=
          if prediction = 0 then
            ("✅ Loan Approved", probability.1 * 100)
          else
            ("❌ Loan Rejected (High Default Risk)", probability.2 * 100)
        Except.ok (rc.1 ++ "\n\nConfidence: " ++ formatTwoDec rc.2 ++ "%")

/-- `predict_loan`: encode the four single-code categoricals (each lookup
may raise `KeyError` before the `try:` block, so such an exception leaves
the function), build `input_dict`, select the artifact's columns (also
before the `try:`), then run the guarded inference; an exception inside
the `try:` is caught and returned as the error-prefixed string. -/
def predict_loan (r : RawInput) (m : ModelArtifact) : Except PyExc String :=
  match dictGet gender_map r.gender with
  | Except.error e => Except.error e
  | Except.ok gender_encoded =>
    match dictGet education_map r.education with
    | Except.error e => Except.error e
    | Except.ok education_encoded =>
      match dictGet home_map r.home_ownership with
      | Except.error e => Except.error e
      | Except.ok home_encoded =>
        match dictGet defaults_map r.previous_defaults with
        | Except.error e => Except.error e
        | Except.ok defaults_encoded =>
          let d := input_dict r gender_encoded education_encoded
            home_encoded defaults_encoded
          match selectColumns d m.feature_names with
          | Except.error e => Except.error e
          | Except.ok input_data =>
            match inference m input_data with
            | Except.ok s => Except.ok s
            | Except.error e => Except.ok ("❌ Error: " ++ e.str)

/-- One serving call against the module-level loaded artifact.  The Python
function only reads the globals `model`, `scaler`, `feature_names` and
never rebinds or mutates them, so the state component passes through
unchanged. -/
def predictCall (r : RawInput) (model_data : ModelArtifact) :
    Except PyExc String × ModelArtifact :=
  (predict_loan r model_data, model_data)

/-- The first example row of the form: a valid application. -/
def sampleInput : RawInput :=
  { age := 30, gender := "male", education := "Bachelor", income := 50000,
    emp_exp := 5, home_ownership := "RENT", loan_amount := 10000,
    loan_intent := "PERSONAL", interest_rate := 10,
    loan_percent_income := 3/10, credit_history := 5, credit_score := 650,
    previous_defaults := "No" }

/-- A concrete deterministic artifact declaring the 17 feature names, whose
classifier always returns label 0 with probabilities (9/10, 1/10). -/
def benignArtifact : ModelArtifact :=
  { model := { predict := fun _ => Except.ok 0,
               predict_proba := fun _ => Except.ok (9/10, 1/10) },
    scaler := { transform := fun v => Except.ok v },
    feature_names := featureKeys }

/-- The sample application with the out-of-domain education value `PhD`. -/
def phdInput : RawInput := { sampleInput with education := "PhD" }

/-- The sample application with a loan intent outside the five declared
intents. -/
def vacationInput : RawInput := { sampleInput with loan_intent := "VACATION" }

/-- The declared feature list of a skewed artifact: the 17 names with
`credit_score` omitted. -/
def featureKeys16 : List String :=
  featureKeys.filter (fun n => n ≠ "credit_score")

/-- An artifact trained on a different schema: its declared feature list
omits `credit_score`. -/
def skewArtifact : ModelArtifact :=
  { benignArtifact with feature_names := featureKeys16 }

/-- An artifact whose scaler rejects every input, to exercise the guarded
inference path. -/
def failingScalerArtifact : ModelArtifact :=
  { benignArtifact with
    scaler := { transform := fun _ =>
      Except.error (PyExc.raised "Input contains NaN") } }

/-! ### Helper lemmas about the assembled feature row -/

/-- The key column of `input_dict` is the fixed 17-name list, for every
application and every choice of encoded codes. -/
theorem input_dict_keys (r : RawInput) (g e hc dc : ℚ) :
    (input_dict r g e hc dc).map Prod.fst = featureKeys := rfl

/-- A name among the 17 produced keys is found by a row lookup. -/
theorem lookup_input_dict_isSome (r : RawInput) (g e hc dc : ℚ) {n : String}
    (hn : n ∈ featureKeys) :
    ((input_dict r g e hc dc).lookup n).isSome := by
  rw [List.lookup_isSome_iff]
  have hmem : n ∈ (input_dict r g e hc dc).map Prod.fst := by
    rw [input_dict_keys]; exact hn
  obtain ⟨p, hp, hpn⟩ := List.mem_map.mp hmem
  exact ⟨p, hp, by simp [hpn]⟩

/-- A name outside the 17 produced keys is not found by a row lookup. -/
theorem lookup_input_dict_none (r : RawInput) (g e hc dc : ℚ) {n : String}
    (hn : n ∉ featureKeys) :
    (input_dict r g e hc dc).lookup n = none := by
  rw [List.lookup_eq_none_iff]
  intro p hp
  have hpk : p.1 ∈ featureKeys := by
    rw [← input_dict_keys r g e hc dc]
    exact List.mem_map_of_mem Prod.fst hp
  simp only [bne_iff_ne, ne_eq]
  intro hcontra
  exact hn (hcontra ▸ hpk)

/-- Selecting a list of names that are all among the produced keys
succeeds and returns exactly the requested names as columns (any produced
key that is not requested is dropped without any error). -/
theorem selectColumns_sub_ok (r : RawInput) (g e hc dc : ℚ)
    (names : List String) (hsub : ∀ n ∈ names, n ∈ featureKeys) :
    ∃ cols, selectColumns (input_dict r g e hc dc) names = Except.ok cols ∧
      cols.map Prod.fst = names := by
  induction names with
  | nil => exact ⟨[], rfl, rfl⟩
  | cons n rest ih =>
    have hn : n ∈ featureKeys := hsub n (List.mem_cons_self n rest)
    obtain ⟨v, hv⟩ := Option.isSome_iff_exists.mp
      (lookup_input_dict_isSome r g e hc dc hn)
    obtain ⟨cols, hcols, hkeys⟩ :=
      ih (fun m hm => hsub m (List.mem_cons_of_mem n hm))
    refine ⟨(n, v) :: cols, ?_, by simp [hkeys]⟩
    simp [selectColumns, hv, hcols]

/-- Selecting a list of names of which some is not among the produced keys
raises a `KeyError` for an absent name. -/
theorem selectColumns_missing_err (r : RawInput) (g e hc dc : ℚ)
    (names : List String) (hbad : ¬ ∀ n ∈ names, n ∈ featureKeys) :
    ∃ k, selectColumns (input_dict r g e hc dc) names =
        Except.error (PyExc.keyError k) ∧ k ∉ featureKeys := by
  induction names with
  | nil => exact absurd (by intro n hn; exact absurd hn (List.not_mem_nil n)) hbad
  | cons n rest ih =>
    by_cases hn : n ∈ featureKeys
    · have hrest : ¬ ∀ m ∈ rest, m ∈ featureKeys := by
        intro hall
        exact hbad (by
          intro m hm
          rcases List.mem_cons.mp hm with hm | hm
          · exact hm ▸ hn
          · exact hall m hm)
      obtain ⟨v, hv⟩ := Option.isSome_iff_exists.mp
        (lookup_input_dict_isSome r g e hc dc hn)
      obtain ⟨k, hk, hknot⟩ := ih hrest
      refine ⟨k, ?_, hknot⟩
      simp [selectColumns, hv, hk]
    · refine ⟨n, ?_, hn⟩
      simp [selectColumns, lookup_input_dict_none r g e hc dc hn]

/-- Selecting exactly the produced key list returns the row unchanged. -/
theorem selectColumns_featureKeys (r : RawInput) (g e hc dc : ℚ) :
    selectColumns (input_dict r g e hc dc) featureKeys =
      Except.ok (input_dict r g e hc dc) := rfl

/-- A declared feature list containing a name the assembler never
produces. -/
def badNames : List String := ["person_age", "person_favorite_color"]

/-! ### Claim theorems -/

/-- C1 (counterexample): with an artifact whose declared feature list omits
`credit_score`, `predict_loan` does not fail at all — it returns a normal
verdict — and the column selection silently returns the row minus the
`credit_score` column.  No SchemaMismatch condition is signalled. -/
theorem schema_skew_silent_drop :
    predict_loan sampleInput skewArtifact =
      Except.ok "✅ Loan Approved\n\nConfidence: 90.00%" ∧
    selectColumns (input_dict sampleInput 1 2 0 0) skewArtifact.feature_names =
      Except.ok ((input_dict sampleInput 1 2 0 0).filter
        (fun p => p.1 ≠ "credit_score")) ∧
    "credit_score" ∉ skewArtifact.feature_names ∧
    "credit_score" ∈ featureKeys := by
  refine ⟨by with_unfolding_all rfl, by with_unfolding_all rfl, by decide, by decide⟩

/-- C1 (amended): the assembler performs no schema check.  If every name
the artifact declares is among the 17 produced keys, column selection
succeeds and returns exactly the declared names — produced keys the
artifact does not declare (such as `credit_score`) are silently dropped;
if the artifact declares a name that is not produced, the selection raises
a `KeyError` (uncaught at this point of `predict_loan`). -/
theorem assembler_subset_drop_or_keyerror (r : RawInput) (g e hc dc : ℚ)
    (names : List String) :
    ((∀ n ∈ names, n ∈ featureKeys) →
      ∃ cols, selectColumns (input_dict r g e hc dc) names = Except.ok cols ∧
        cols.map Prod.fst = names) ∧
    ((¬ ∀ n ∈ names, n ∈ featureKeys) →
      ∃ k, selectColumns (input_dict r g e hc dc) names =
          Except.error (PyExc.keyError k) ∧ k ∉ featureKeys) :=
  ⟨selectColumns_sub_ok r g e hc dc names,
   selectColumns_missing_err r g e hc dc names⟩

/-- Witness for the amended C1 at the 16-name skewed list and at a list
with an unproduced name. -/
theorem assembler_subset_drop_or_keyerror_witness :
    (∃ cols, selectColumns (input_dict sampleInput 1 2 0 0) featureKeys16 =
        Except.ok cols ∧ cols.map Prod.fst = featureKeys16) ∧
    (∃ k, selectColumns (input_dict sampleInput 1 2 0 0) badNames =
        Except.error (PyExc.keyError k) ∧ k ∉ featureKeys) :=
  ⟨(assembler_subset_drop_or_keyerror sampleInput 1 2 0 0 featureKeys16).1
      (by decide),
   (assembler_subset_drop_or_keyerror sampleInput 1 2 0 0 badNames).2
      (by decide)⟩

/-- C2 (counterexample): with `education = "PhD"` the encoder lookup raises
`KeyError` before the guarded block, and the exception escapes
`predict_loan` — no error-prefixed verdict string is returned. -/
theorem invalid_education_exception_escapes :
    predict_loan phdInput benignArtifact =
      Except.error (PyExc.keyError "PhD") := rfl

/-- C2 (amended): an out-of-domain enum value reaching the core raises a
`KeyError` that escapes `predict_loan` uncaught, because the encoder
lookups run before the `try:` block; shown here for any input whose
gender is in domain and whose education is not. -/
theorem domain_keyerror_escapes_predict (r : RawInput) (m : ModelArtifact)
    (g : ℚ) (hg : gender_map.lookup r.gender = some g)
    (he : education_map.lookup r.education = none) :
    predict_loan r m = Except.error (PyExc.keyError r.education) := by
  simp [predict_loan, dictGet, hg, he]

/-- Witness for the amended C2 at the `PhD` input. -/
theorem domain_keyerror_escapes_predict_witness :
    predict_loan phdInput benignArtifact =
      Except.error (PyExc.keyError phdInput.education) :=
  domain_keyerror_escapes_predict phdInput benignArtifact 1 rfl rfl

/-- C4: each single-code categorical value maps to exactly its fixed
trained numeric code. -/
theorem encoder_fixed_codes :
    dictGet gender_map "female" = Except.ok 0 ∧
    dictGet gender_map "male" = Except.ok 1 ∧
    dictGet education_map "High School" = Except.ok 0 ∧
    dictGet education_map "Associate" = Except.ok 1 ∧
    dictGet education_map "Bachelor" = Except.ok 2 ∧
    dictGet education_map "Master" = Except.ok 3 ∧
    dictGet home_map "RENT" = Except.ok 0 ∧
    dictGet home_map "OWN" = Except.ok 1 ∧
    dictGet home_map "MORTGAGE" = Except.ok 2 ∧
    dictGet home_map "OTHER" = Except.ok 3 ∧
    dictGet defaults_map "No" = Except.ok 0 ∧
    dictGet defaults_map "Yes" = Except.ok 1 :=
  ⟨rfl, rfl, rfl, rfl, rfl, rfl, rfl, rfl, rfl, rfl, rfl, rfl⟩

/-- C8: two invocations of `predict_loan` on the same input against the
same loaded artifact state return the identical verdict value, the second
running on the state left by the first. -/
theorem predict_deterministic (r : RawInput) (model_data : ModelArtifact) :
    (predictCall r model_data).1 =
      (predictCall r (predictCall r model_data).2).1 := rfl

/-- C9: a prediction call leaves the loaded artifact state — model, scaler
and feature-name list — exactly as it was, whether the call returns a
verdict, an error string, or propagates an exception. -/
theorem artifact_state_unchanged (r : RawInput) (model_data : ModelArtifact) :
    (predictCall r model_data).2.model = model_data.model ∧
    (predictCall r model_data).2.scaler = model_data.scaler ∧
    (predictCall r model_data).2.feature_names = model_data.feature_names :=
  ⟨rfl, rfl, rfl⟩

/-- C3: on a successful inference, label 0 yields the Approved headline
with confidence `probability[0] * 100` and label 1 yields the Rejected
headline carrying the fixed qualifier with confidence
`probability[1] * 100`; the verdict is the two-part text ending in the
two-decimal confidence line, and the qualifier `High Default Risk` occurs
in the rejection headline and not in the approval headline. -/
theorem verdict_format_correct (r : RawInput) (m : ModelArtifact)
    (g e hc dc : ℚ) (cols : List (String × ℚ)) (scaled : List ℚ)
    (label p0 p1 : ℚ)
    (hg : gender_map.lookup r.gender = some g)
    (he : education_map.lookup r.education = some e)
    (hh : home_map.lookup r.home_ownership = some hc)
    (hd : defaults_map.lookup r.previous_defaults = some dc)
    (hsel : selectColumns (input_dict r g e hc dc) m.feature_names =
      Except.ok cols)
    (hscale : m.scaler.transform (cols.map Prod.snd) = Except.ok scaled)
    (hpred : m.model.predict scaled = Except.ok label)
    (hproba : m.model.predict_proba scaled = Except.ok (p0, p1)) :
    (label = 0 → predict_loan r m = Except.ok ("✅ Loan Approved" ++
      "\n\nConfidence: " ++ formatTwoDec (p0 * 100) ++ "%")) ∧
    (label = 1 → predict_loan r m =
      Except.ok ("❌ Loan Rejected (High Default Risk)" ++
        "\n\nConfidence: " ++ formatTwoDec (p1 * 100) ++ "%")) ∧
    (∃ a b : String,
      "❌ Loan Rejected (High Default Risk)" = a ++ "High Default Risk" ++ b) ∧
    (∀ a b : String, "✅ Loan Approved" ≠ a ++ "High Default Risk" ++ b) := by
  refine ⟨?_, ?_, ⟨"❌ Loan Rejected (", ")", rfl⟩, ?_⟩
  · intro h0
    subst h0
    simp [predict_loan, dictGet, hg, he, hh, hd, hsel, inference, hscale,
      hpred, hproba]
  · intro h1
    subst h1
    simp [predict_loan, dictGet, hg, he, hh, hd, hsel, inference, hscale,
      hpred, hproba]
  · intro a b hcontra
    have hlen := congrArg String.length hcontra
    rw [String.length_append, String.length_append] at hlen
    have hA : ("✅ Loan Approved" : String).length = 15 := rfl
    have hQ : ("High Default Risk" : String).length = 17 := rfl
    rw [hA, hQ] at hlen
    omega

/-- Witness for C3 at the sample input against the benign artifact
(label 0, probabilities (9/10, 1/10)). -/
theorem verdict_format_correct_witness :
    ((0 : ℚ) = 0 → predict_loan sampleInput benignArtifact =
      Except.ok ("✅ Loan Approved" ++ "\n\nConfidence: " ++
        formatTwoDec ((9 / 10 : ℚ) * 100) ++ "%")) ∧
    ((0 : ℚ) = 1 → predict_loan sampleInput benignArtifact =
      Except.ok ("❌ Loan Rejected (High Default Risk)" ++
        "\n\nConfidence: " ++ formatTwoDec ((1 / 10 : ℚ) * 100) ++ "%")) ∧
    (∃ a b : String,
      "❌ Loan Rejected (High Default Risk)" = a ++ "High Default Risk" ++ b) ∧
    (∀ a b : String, "✅ Loan Approved" ≠ a ++ "High Default Risk" ++ b) :=
  verdict_format_correct sampleInput benignArtifact 1 2 0 0
    (input_dict sampleInput 1 2 0 0)
    ((input_dict sampleInput 1 2 0 0).map Prod.snd) 0 (9 / 10) (1 / 10)
    rfl rfl rfl rfl rfl rfl rfl rfl

/-- C5: for each of the five declared loan intents, exactly one of the
five indicator features is 1 (the one at the intent's own position) and
the other four are 0. -/
theorem onehot_exclusive (i : String) (hi : i ∈ fiveIntents) :
    (intentBlock i).count 1 = 1 ∧ (intentBlock i).count 0 = 4 ∧
    (intentBlock i)[fiveIntents.indexOf i]? = some 1 := by
  fin_cases hi <;> refine ⟨?_, ?_, ?_⟩ <;> with_unfolding_all rfl

/-- Witness for C5 at the intent `MEDICAL`. -/
theorem onehot_exclusive_witness :
    (intentBlock "MEDICAL").count 1 = 1 ∧
    (intentBlock "MEDICAL").count 0 = 4 ∧
    (intentBlock "MEDICAL")[fiveIntents.indexOf "MEDICAL"]? = some 1 :=
  onehot_exclusive "MEDICAL" (by decide)

/-- C6: for every application and encoded codes, the assembled row has
exactly the 17 feature names, each exactly once, and (for an artifact
declaring the authoritative 17-name list, per the artifact's data-model
invariant) its key set equals the artifact's declared feature-name set. -/
theorem schema_invariant_17_keys (r : RawInput) (g e hc dc : ℚ)
    (m : ModelArtifact) (hm : m.feature_names = featureKeys) :
    (input_dict r g e hc dc).map Prod.fst = featureKeys ∧
    ((input_dict r g e hc dc).map Prod.fst).Nodup ∧
    ((input_dict r g e hc dc).map Prod.fst).toFinset =
      m.feature_names.toFinset := by
  have hk := input_dict_keys r g e hc dc
  refine ⟨hk, ?_, ?_⟩
  · rw [hk]; decide
  · rw [hk, hm]

/-- Witness for C6 at the sample input and the benign artifact. -/
theorem schema_invariant_17_keys_witness :
    (input_dict sampleInput 1 2 0 0).map Prod.fst = featureKeys ∧
    ((input_dict sampleInput 1 2 0 0).map Prod.fst).Nodup ∧
    ((input_dict sampleInput 1 2 0 0).map Prod.fst).toFinset =
      benignArtifact.feature_names.toFinset :=
  schema_invariant_17_keys sampleInput 1 2 0 0 benignArtifact rfl

/-- C7: when the scaling transform or the classifier (label or
probabilities) raises, `predict_loan` catches the exception and returns
the error-prefixed verdict string instead of propagating it. -/
theorem inference_failure_caught (r : RawInput) (m : ModelArtifact)
    (g e hc dc : ℚ) (cols : List (String × ℚ)) (ex : PyExc)
    (hg : gender_map.lookup r.gender = some g)
    (he : education_map.lookup r.education = some e)
    (hh : home_map.lookup r.home_ownership = some hc)
    (hd : defaults_map.lookup r.previous_defaults = some dc)
    (hsel : selectColumns (input_dict r g e hc dc) m.feature_names =
      Except.ok cols)
    (hfail : m.scaler.transform (cols.map Prod.snd) = Except.error ex ∨
      (∃ scaled, m.scaler.transform (cols.map Prod.snd) = Except.ok scaled ∧
        m.model.predict scaled = Except.error ex) ∨
      (∃ scaled label,
        m.scaler.transform (cols.map Prod.snd) = Except.ok scaled ∧
        m.model.predict scaled = Except.ok label ∧
        m.model.predict_proba scaled = Except.error ex)) :
    predict_loan r m = Except.ok ("❌ Error: " ++ ex.str) := by
  rcases hfail with hs | ⟨scaled, hs, hp⟩ | ⟨scaled, label, hs, hp, hq⟩
  · simp [predict_loan, dictGet, hg, he, hh, hd, hsel, inference, hs]
  · simp [predict_loan, dictGet, hg, he, hh, hd, hsel, inference, hs, hp]
  · simp [predict_loan, dictGet, hg, he, hh, hd, hsel, inference, hs, hp, hq]

/-- Witness for C7 at the sample input against the artifact whose scaler
raises. -/
theorem inference_failure_caught_witness :
    predict_loan sampleInput failingScalerArtifact =
      Except.ok ("❌ Error: " ++ (PyExc.raised "Input contains NaN").str) :=
  inference_failure_caught sampleInput failingScalerArtifact 1 2 0 0
    (input_dict sampleInput 1 2 0 0) (PyExc.raised "Input contains NaN")
    rfl rfl rfl rfl rfl (Or.inl rfl)

/-- C10: a loan intent outside the five declared values raises no error:
all five indicator features are 0, the assembled row still has exactly
the 17 keys, column selection succeeds, and `predict_loan` completes with
a returned string (the vector is passed on to inference). -/
theorem unknown_intent_zero_block (r : RawInput) (m : ModelArtifact)
    (g e hc dc : ℚ)
    (hi : r.loan_intent ∉ fiveIntents)
    (hg : gender_map.lookup r.gender = some g)
    (he : education_map.lookup r.education = some e)
    (hh : home_map.lookup r.home_ownership = some hc)
    (hd : defaults_map.lookup r.previous_defaults = some dc)
    (hm : m.feature_names = featureKeys) :
    intentBlock r.loan_intent = [0, 0, 0, 0, 0] ∧
    (input_dict r g e hc dc).map Prod.fst = featureKeys ∧
    selectColumns (input_dict r g e hc dc) m.feature_names =
      Except.ok (input_dict r g e hc dc) ∧
    ∃ s, predict_loan r m = Except.ok s := by
  simp only [fiveIntents, List.mem_cons, List.not_mem_nil, or_false,
    not_or] at hi
  obtain ⟨h1, h2, h3, h4, h5⟩ := hi
  have hsel : selectColumns (input_dict r g e hc dc) m.feature_names =
      Except.ok (input_dict r g e hc dc) := by
    rw [hm]; exact selectColumns_featureKeys r g e hc dc
  refine ⟨?_, rfl, hsel, ?_⟩
  · simp [intentBlock, intent_education, intent_homeimprovement,
      intent_medical, intent_personal, intent_venture, h1, h2, h3, h4, h5]
  · cases hinf : inference m (input_dict r g e hc dc) with
    | ok s =>
      exact ⟨s, by simp [predict_loan, dictGet, hg, he, hh, hd, hsel, hinf]⟩
    | error ex =>
      exact ⟨"❌ Error: " ++ ex.str,
        by simp [predict_loan, dictGet, hg, he, hh, hd, hsel, hinf]⟩

/-- Witness for C10 at the sample input with intent `VACATION` against the
benign artifact. -/
theorem unknown_intent_zero_block_witness :
    intentBlock vacationInput.loan_intent = [0, 0, 0, 0, 0] ∧
    (input_dict vacationInput 1 2 0 0).map Prod.fst = featureKeys ∧
    selectColumns (input_dict vacationInput 1 2 0 0)
      benignArtifact.feature_names =
      Except.ok (input_dict vacationInput 1 2 0 0) ∧
    ∃ s, predict_loan vacationInput benignArtifact = Except.ok s :=
  unknown_intent_zero_block vacationInput benignArtifact 1 2 0 0
    (by decide) rfl rfl rfl rfl rfl
